import Mathlib

/-!
Verification of the Travliaq-Testing orchestration core: a shallow embedding of
the loop detector (`src/loop_detector.py`), the phase tracker and agent
overrides (`src/travliaq_agent.py`), the configuration model chain
(`src/config.py`), and the orchestrator control flow (`src/orchestrator.py`),
together with theorems settling the specified behavioural claims.

Python strings are embedded as `List Char` (`Str`) where character-level
operations (`rsplit`, `split`, `in`, `sorted`) matter, and as Lean `String`
elsewhere.  Mutation is embedded as explicit state passing; `raise` as
`Except`; the external collaborators (LLM SDK calls, the browser-use agent
loop) are abstracted as function parameters, following the boundary the
code itself draws around them.
-/

set_option maxRecDepth 8192

namespace Travliaq

/-- Python `str` at character granularity. -/
abbrev Str := List Char

/-- Python `s.lower()` at character granularity. -/
def pyLower (s : String) : Str :=
  s.toList.map Char.toLower

/-- Python `s.strip()` at character granularity. -/
def pyStrip (s : Str) : Str :=
  ((s.dropWhile Char.isWhitespace).reverse.dropWhile Char.isWhitespace).reverse

/-- `True` iff `sep` occurs in `s` starting at index `i` (Python substring
match at one position). -/
def occursAt (s sep : Str) (i : Nat) : Bool :=
  (s.drop i).take sep.length == sep

/-- Scan indices `i, i-1, ..., 0` for the last occurrence of `sep`. -/
def lastOccAux (s sep : Str) : Nat → Option Nat
  | 0 => if occursAt s sep 0 then some 0 else none
  | n + 1 => if occursAt s sep (n + 1) then some (n + 1) else lastOccAux s sep n

/-- Index of the last occurrence of `sep` in `s` (Python `str.rfind`). -/
def lastOcc (s sep : Str) : Option Nat :=
  lastOccAux s sep s.length

/-- Python `s.rsplit(sep, 1)[0]`: everything before the last occurrence of
`sep`, or all of `s` when `sep` does not occur. -/
def rsplitHead (s sep : Str) : Str :=
  match lastOcc s sep with
  | none => s
  | some i => s.take i

/-- Index of the first occurrence of `sep` in `s` (Python `str.find`). -/
def firstOcc (s sep : Str) : Option Nat :=
  (List.range (s.length + 1)).find? (fun i => occursAt s sep i)

/-- Fuel-indexed worker for `splitOnFull`. -/
def splitOnAux (sep : Str) : Nat → Str → List Str
  | 0, s => [s]
  | fuel + 1, s =>
    match firstOcc s sep with
    | none => [s]
    | some i => s.take i :: splitOnAux sep fuel (s.drop (i + sep.length))

/-- Python `s.split(sep)` for a non-empty separator: left-to-right greedy
split at every occurrence. -/
def splitOnFull (s sep : Str) : List Str :=
  splitOnAux sep s.length s

/-- Python `needle in hay` (substring containment). -/
def containsSub (hay needle : Str) : Bool :=
  (List.range (hay.length + 1)).any (fun i => occursAt hay needle i)

/-- Python string `<=` (lexicographic by code point). -/
def lexLe : Str → Str → Bool
  | [], _ => true
  | _ :: _, [] => false
  | x :: xs, y :: ys => if x = y then lexLe xs ys else decide (x < y)

/-- Insert into a `lexLe`-sorted list, keeping it sorted. -/
def insSorted (x : Str) : List Str → List Str
  | [] => [x]
  | y :: ys => if lexLe x y then x :: y :: ys else y :: insSorted x ys

/-- Python `sorted` on a list of strings (insertion sort, lexicographic). -/
def sortStrs : List Str → List Str
  | [] => []
  | x :: xs => insSorted x (sortStrs xs)

/-- Python `str(n)` for a natural number. -/
def natToStr (n : Nat) : Str :=
  Nat.toDigits 10 n

/-- Python `len(set(l)) == 1`: the list is non-empty and all elements equal. -/
def allSame : List Str → Bool
  | [] => false
  | x :: xs => xs.all (fun y => y == x)

/-! ## Loop detector — `src/loop_detector.py` -/

/-- Result of a loop detection check (`LoopDetection` dataclass). -/
structure LoopDetection where
  detected : Bool
  patternType : Option Str := none
  pattern : Option Str := none
  window : List Str := []
  deriving Repr, DecidableEq

/-- State of `LoopDetector`: sliding window plus suppression bookkeeping. -/
structure LoopDetector where
  window : List Str
  windowSize : Nat
  repeatThreshold : Nat
  alternatingCycles : Nat
  detectedCount : Nat
  suppressedPattern : Option Str
  deriving Repr, DecidableEq

/-- `LoopDetector()` with the constructor defaults
(`window_size=8, repeat_threshold=3, alternating_cycles=2`). -/
def LoopDetector.init : LoopDetector :=
  { window := [], windowSize := 8, repeatThreshold := 3,
    alternatingCycles := 2, detectedCount := 0, suppressedPattern := none }

/-- The separator `" x"` used in pattern multiplicity suffixes. -/
def sepX : Str := [' ', 'x']

/-- The separator `" <-> "` used in alternating patterns. -/
def sepArrow : Str := [' ', '<', '-', '>', ' ']

/-- The pattern-type string `"repeat"`. -/
def repeatT : Str := ['r', 'e', 'p', 'e', 'a', 't']

/-- The pattern-type string `"alternating"`. -/
def alternatingT : Str := ['a', 'l', 't', 'e', 'r', 'n', 'a', 't', 'i', 'n', 'g']

/-- `LoopDetector._check`: repeat (AAA) check first, then alternating (ABAB)
check on the current window. -/
def LoopDetector.check (d : LoopDetector) : LoopDetection :=
  let w := d.window
  let rep : Option LoopDetection :=
    if d.repeatThreshold ≤ w.length then
      let tail := w.drop (w.length - d.repeatThreshold)
      if allSame tail then
        let x := tail.headD []
        let count := (w.reverse.takeWhile (fun y => y == x)).length
        some { detected := true, patternType := some repeatT,
               pattern := some (x ++ sepX ++ natToStr count), window := w }
      else none
    else none
  match rep with
  | some r => r
  | none =>
    let minLen := 2 * d.alternatingCycles
    if minLen ≤ w.length then
      let tail := w.drop (w.length - minLen)
      let a := tail.getD 0 []
      let b := tail.getD 1 []
      if !(a == b) &&
          (List.range minLen).all
            (fun i => tail.getD i [] == (if i % 2 == 0 then a else b)) then
        { detected := true, patternType := some alternatingT,
          pattern := some (a ++ sepArrow ++ b ++ sepX ++ natToStr d.alternatingCycles),
          window := w }
      else
        { detected := false, window := w }
    else
      { detected := false, window := w }

/-- `LoopDetector.push`: append to the window (capped at `window_size`),
run `_check`, and apply suppression of an unbroken ongoing pattern. -/
def LoopDetector.push (d : LoopDetector) (actionName : Str) :
    LoopDetector × LoopDetection :=
  let w0 := d.window ++ [actionName]
  let w := if d.windowSize < w0.length then w0.drop (w0.length - d.windowSize) else w0
  let d1 := { d with window := w }
  let r := d1.check
  if r.detected then
    let base := rsplitHead (r.pattern.getD []) sepX
    let base2 :=
      if r.patternType == some alternatingT && containsSub base sepArrow then
        List.intercalate sepArrow (sortStrs (splitOnFull base sepArrow))
      else base
    let key := (r.patternType.getD []) ++ ':' :: base2
    if some key == d1.suppressedPattern then
      (d1, { detected := false, window := w })
    else
      ({ d1 with suppressedPattern := some key,
                 detectedCount := d1.detectedCount + 1 }, r)
  else
    ({ d1 with suppressedPattern := none }, r)

/-- Push a whole list of action names, collecting each push's result. -/
def pushAll (d : LoopDetector) : List Str → LoopDetector × List LoopDetection
  | [] => (d, [])
  | x :: xs =>
    let p := d.push x
    let q := pushAll p.1 xs
    (q.1, p.2 :: q.2)

/-- The suppression key of an ongoing repeat of action `a`
(`"repeat:" + a`). -/
def repeatKey (a : Str) : Str := repeatT ++ ':' :: a

/-- The detector state mid-repeat: a window of `m` copies of `a`, one
detection counted, the repeat key suppressed. -/
def repState (a : Str) (m : Nat) : LoopDetector :=
  { window := List.replicate m a, windowSize := 8, repeatThreshold := 3,
    alternatingCycles := 2, detectedCount := 1,
    suppressedPattern := some (repeatKey a) }

/-- The action name `"click"`. -/
def clickA : Str := "click".toList

/-- The action name `"scroll"`. -/
def scrollA : Str := "scroll".toList

/-- The `i`-th element (0-based) of the endless click/scroll alternation. -/
def altElem (i : Nat) : Str := if i % 2 == 0 then clickA else scrollA

/-- The first `n` pushes of the click/scroll alternation. -/
def altSeq (n : Nat) : List Str := (List.range n).map altElem

/-- The suppression key of the ongoing click/scroll alternation: the pair is
sorted, so the `A,B` and `B,A` phases share it. -/
def altKey : Str := "alternating:click <-> scroll".toList

/-- The detector window after `n` alternating pushes. -/
def altWin (n : Nat) : List Str :=
  if n < 8 then altSeq n
  else if n % 2 == 0 then
    [clickA, scrollA, clickA, scrollA, clickA, scrollA, clickA, scrollA]
  else [scrollA, clickA, scrollA, clickA, scrollA, clickA, scrollA, clickA]

/-- The detector state mid-alternation after `n ≥ 4` pushes. -/
def altState (n : Nat) : LoopDetector :=
  { window := altWin n, windowSize := 8, repeatThreshold := 3,
    alternatingCycles := 2, detectedCount := 1, suppressedPattern := some altKey }

/-! ## Phase tracker — `src/travliaq_agent.py` -/

/-- `PhaseTracker` dataclass.  The unused cosmetic field `_phase_names` is
elided; `_recent_actions` and `_stuck_action_count` keep their roles. -/
structure PhaseTracker where
  totalPhases : Nat
  language : String := "fr"
  currentPhaseIndex : Nat := 0
  feedbackSubmitted : Bool := false
  recentActions : List String := []
  stuckActionCount : Nat := 0
  deriving Repr, DecidableEq

/-- `PhaseTracker.feedback_phase_index` (`total_phases - 1`). -/
def PhaseTracker.feedbackPhaseIndex (pt : PhaseTracker) : Nat :=
  pt.totalPhases - 1

/-- `PhaseTracker.is_feedback_reached`. -/
def PhaseTracker.isFeedbackReached (pt : PhaseTracker) : Bool :=
  pt.feedbackPhaseIndex ≤ pt.currentPhaseIndex

/-- `PhaseTracker.push_action`: append, keep the last 6. -/
def PhaseTracker.pushAction (pt : PhaseTracker) (name : String) : PhaseTracker :=
  let ra := pt.recentActions ++ [name]
  { pt with recentActions := if 6 < ra.length then ra.drop (ra.length - 6) else ra }

/-- `PhaseTracker.is_stuck_in_loop`: last 3 of the ring identical. -/
def PhaseTracker.isStuckInLoop (pt : PhaseTracker) : Bool :=
  if pt.recentActions.length < 3 then false
  else
    match pt.recentActions.drop (pt.recentActions.length - 3) with
    | [] => false
    | x :: xs => xs.all (fun y => y == x)

/-- One conversation goal of a persona (`persona_loader.PersonaDefinition`
member); only the `phase` name matters to the tracker update. -/
structure ConversationGoal where
  phase : String
  deriving Repr, DecidableEq

/-- The slice of `PersonaDefinition` the orchestration core reads. -/
structure PersonaDefinition where
  id : String
  name : String
  language : String := "fr"
  conversationGoals : List ConversationGoal := []
  deriving Repr, DecidableEq

/-- Python `needle in hay` on Lean `String`s. -/
def hasSubstr (hay needle : String) : Bool :=
  containsSub hay.toList needle.toList

/-- The phase keyword table of `orchestrator._update_phase_tracker`. -/
def phaseKeywordsMap : List (String × List String) :=
  [("greeting", ["greeting", "bonjour", "hello", "salut"]),
   ("preferences", ["préférence", "preference", "style", "intérêt", "interest", "slider"]),
   ("destination", ["destination", "ville", "city", "pays", "country", "suggestion"]),
   ("dates", ["date", "calendrier", "calendar", "datepicker"]),
   ("travelers", ["voyageur", "traveler", "adulte", "adult", "enfant", "child"]),
   ("logistics", ["aéroport", "airport", "vol", "flight", "aller-retour", "trip_type"]),
   ("deep_conversation", ["question", "précis", "detail", "expliqu"]),
   ("completion", ["récapitulatif", "recap", "recherche", "search", "result"]),
   ("send_logs", ["nous aider", "feedback", "popup", "résumé", "summary"])]

/-- The feedback keyword list of `orchestrator._update_phase_tracker`. -/
def feedbackKeywords : List String :=
  ["nous aider", "feedback", "popup", "soumis", "submitted", "submit"]

/-- The goal-walk of `_update_phase_tracker`: for each indexed goal past the
current index, advance to its index when one of its keywords occurs in the
combined haystack (mutating walk embedded as a fold). -/
def updateIndexLoop (goals : List (Nat × ConversationGoal)) (combined : Str)
    (cur : Nat) : Nat :=
  goals.foldl
    (fun cur ig =>
      if ig.1 ≤ cur then cur
      else
        let kws := (phaseKeywordsMap.lookup ig.2.phase).getD []
        if !kws.isEmpty && kws.any (fun kw => containsSub combined kw.toList) then
          ig.1
        else cur)
    cur

/-- The combined lowercase haystack of `_update_phase_tracker`:
`" ".join(action_names).lower()`, extended with the lowercased thinking text
when present. -/
def combinedHaystack (thinking : Option String) (actionNames : List String) : Str :=
  let joined := (List.intercalate [' '] (actionNames.map String.toList)).map Char.toLower
  match thinking with
  | none => joined
  | some th => joined ++ ' ' :: pyLower th

/-- `orchestrator._update_phase_tracker` on a present tracker: push actions,
build the lowercase haystack, walk the goals, detect feedback submission. -/
def updatePT (pt : PhaseTracker) (persona : PersonaDefinition)
    (thinking : Option String) (actionNames : List String) : PhaseTracker :=
  let pt1 := actionNames.foldl (fun t a => t.pushAction a) pt
  let combined := combinedHaystack thinking actionNames
  let newIdx := updateIndexLoop persona.conversationGoals.enum combined pt1.currentPhaseIndex
  let pt2 := { pt1 with currentPhaseIndex := newIdx }
  if feedbackKeywords.any (fun kw => containsSub combined kw.toList) &&
      (containsSub combined "click".toList || containsSub combined "cliqu".toList ||
       containsSub combined "input".toList) then
    { pt2 with feedbackSubmitted := true }
  else pt2

/-- `orchestrator._update_phase_tracker` including the `None`-tracker guard. -/
def updatePhaseTracker (pt : Option PhaseTracker) (persona : PersonaDefinition)
    (thinking : Option String) (actionNames : List String) : Option PhaseTracker :=
  pt.map (fun t => updatePT t persona thinking actionNames)

/-- A whole run's worth of step-callback tracker updates, in order. -/
def applyUpdates (pt : PhaseTracker) (persona : PersonaDefinition)
    (inputs : List (Option String × List String)) : PhaseTracker :=
  inputs.foldl (fun t inp => updatePT t persona inp.1 inp.2) pt

/-! ## Agent factory — `src/agent_factory.py` -/

/-- `create_agent` lines 183-186: the tracker handed to a (new) agent is a
fresh `PhaseTracker` built from the persona alone. -/
def createAgentTracker (persona : PersonaDefinition) : PhaseTracker :=
  { totalPhases := persona.conversationGoals.length, language := persona.language }

/-- `orchestrator.run_single_persona` line 313: on a backup-model failover
retry, `create_agent` is called again and the local `phase_tracker` is rebound
to the tracker it returns; the previous tracker is not passed in. -/
def trackerAfterFailover (persona : PersonaDefinition)
    (_previous : PhaseTracker) : PhaseTracker :=
  createAgentTracker persona

/-! ## TravliaqAgent forced-done override — `src/travliaq_agent.py` -/

/-- What `TravliaqAgent._force_done_after_last_step` does on one call. -/
inductive ForcedDoneOutcome where
  /-- Delegated to `super()._force_done_after_last_step` (terminal-only
  `DoneAgentOutput` schema activates). -/
  | superForcedDone : ForcedDoneOutcome
  /-- Kept the full action schema and injected a context message. -/
  | keptFullSchema (msg : String) : ForcedDoneOutcome
  /-- Not the last step (or no step info): no effect. -/
  | noEffect : ForcedDoneOutcome
  deriving Repr, DecidableEq

/-- The French last-step message of `_force_done_after_last_step`. -/
def lastStepMsgFr : String :=
  "C\x27est ta DERNIÈRE action. Tu N\x27AS PAS encore soumis le feedback. " ++
  "Tu DOIS cliquer sur le lien \x27Cliquez ici pour nous aider\x27 en bas " ++
  "du chat MAINTENANT. Si le lien n\x27est pas visible, scroll vers le " ++
  "bas. C\x27est PLUS IMPORTANT que de terminer le test normalement."

/-- The English last-step message of `_force_done_after_last_step`. -/
def lastStepMsgEn : String :=
  "This is your LAST action. You have NOT submitted feedback yet. " ++
  "You MUST click the \x27Cliquez ici pour nous aider\x27 link at the " ++
  "bottom of the chat NOW. If the link is not visible, scroll down. " ++
  "This is MORE IMPORTANT than finishing the test normally."

/-- `TravliaqAgent._force_done_after_last_step`: `step_info` is `none` for a
missing/falsy `step_info`, otherwise carries `is_last_step()`. -/
def forceDoneAfterLastStep (stepInfoIsLast : Option Bool)
    (pt : PhaseTracker) : ForcedDoneOutcome :=
  match stepInfoIsLast with
  | none => .noEffect
  | some isLast =>
    if isLast then
      if pt.feedbackSubmitted then .superForcedDone
      else .keptFullSchema (if pt.language == "fr" then lastStepMsgFr else lastStepMsgEn)
    else .noEffect

/-! ## Configuration — `src/config.py` -/

/-- The `Settings` environment model, with the source defaults.  String
fields mirror the pydantic settings fields read by the core. -/
structure Settings where
  sambanovaApiKey : String := ""
  sambanovaModel : String := "Llama-4-Maverick-17B-128E-Instruct"
  groqApiKey : String := ""
  groqModel : String := "meta-llama/llama-4-scout-17b-16e-instruct"
  openrouterApiKey : String := ""
  openrouterModel : String := "nvidia/nemotron-nano-12b-v2-vl:free"
  openrouterPaidModel : String := ""
  googleApiKey : String := ""
  googleModel : String := "gemini-2.5-flash-lite"
  googleFallbackModel : String := "gemini-2.5-flash"
  cerebrasApiKey : String := ""
  cerebrasModel : String := "llama3.1-8b"
  openrouterBackupModels : String :=
    "google/gemma-3-12b-it:free," ++
    "google/gemma-3-27b-it:free," ++
    "deepseek/deepseek-r1-0528:free," ++
    "z-ai/glm-4.5-air:free," ++
    "arcee-ai/trinity-mini:free," ++
    "stepfun/step-3.5-flash:free"
  deriving Repr, DecidableEq

/-- `Settings.openrouter_backup_models_list`: split on commas, strip, drop
empties. -/
def Settings.openrouterBackupModelsList (s : Settings) : List String :=
  ((((splitOnFull s.openrouterBackupModels.toList [',']).map pyStrip).filter
    (fun m => !m.isEmpty)).map List.asString)

/-- `Settings.build_model_chain`: the ordered model chain from configured
credentials (SambaNova > Groq > OpenRouter > Google > Cerebras > OpenRouter
backups). -/
def Settings.buildModelChain (s : Settings) : List String :=
  (if !(s.sambanovaApiKey == "") then [s.sambanovaModel] else []) ++
  (if !(s.groqApiKey == "") then [s.groqModel] else []) ++
  (if !(s.openrouterApiKey == "") && !(s.openrouterModel == "") then
    [s.openrouterModel] else []) ++
  (if !(s.openrouterApiKey == "") && !(s.openrouterPaidModel == "") then
    [s.openrouterPaidModel] else []) ++
  (if !(s.googleApiKey == "") then [s.googleModel, s.googleFallbackModel] else []) ++
  (if !(s.cerebrasApiKey == "") then [s.cerebrasModel] else []) ++
  (if !(s.openrouterApiKey == "") then s.openrouterBackupModelsList else [])

/-- The LLM providers the system distinguishes. -/
inductive Provider where
  | google | groq | sambanova | openrouter
  deriving Repr, DecidableEq

/-! ## Orchestrator — `src/orchestrator.py` -/

/-- One `_check_llm_health` body execution.  The three SDK completion calls
are the external collaborators; `net p = true` means the minimal completion
call to provider `p` returns without raising.  The branch order is the
source's: Groq, then OpenRouter (key and model), then Google, else raise
`"No LLM API keys configured"`. -/
def checkLlmHealthOnce (s : Settings) (net : Provider → Bool) :
    Except String Unit :=
  if !(s.groqApiKey == "") then
    if net .groq then .ok () else .error "groq completion raised"
  else if !(s.openrouterApiKey == "") && !(s.openrouterModel == "") then
    if net .openrouter then .ok () else .error "openrouter completion raised"
  else if !(s.googleApiKey == "") then
    if net .google then .ok () else .error "google completion raised"
  else .error "No LLM API keys configured"

/-- tenacity `wait_exponential(multiplier=10, min=10, max=60)` before retry
attempt `k+1`: `max(min, min(multiplier * 2^(k-1), max))`. -/
def waitExponential (multiplier minW maxW k : Nat) : Nat :=
  max minW (min (multiplier * 2 ^ (k - 1)) maxW)

/-- The `@retry(stop_after_attempt(3), wait_exponential(10, 10, 60),
reraise=True)` wrapper on `_check_llm_health`: run up to three attempts,
sleeping the exponential wait between failed attempts; return the final
outcome and the list of sleeps performed.  `net k` is the network behaviour
seen by attempt `k`. -/
def checkLlmHealthRetry (s : Settings) (net : Nat → Provider → Bool) :
    Except String Unit × List Nat :=
  match checkLlmHealthOnce s (net 1) with
  | .ok () => (.ok (), [])
  | .error _ =>
    match checkLlmHealthOnce s (net 2) with
    | .ok () => (.ok (), [waitExponential 10 10 60 1])
    | .error _ =>
      match checkLlmHealthOnce s (net 3) with
      | .ok () => (.ok (), [waitExponential 10 10 60 1, waitExponential 10 10 60 2])
      | .error e => (.error e, [waitExponential 10 10 60 1, waitExponential 10 10 60 2])

/-- `models.RunStatus`. -/
inductive RunStatus where
  | running | completed | failed | timeout
  deriving Repr, DecidableEq

/-- The slice of `models.TestRunResult` the batch-level claims read.  The
source model has no `exhausted_providers` field; the elided fields (timing,
logs, scores) do not include one either. -/
structure TestRunResult where
  runId : String
  personaId : String
  status : RunStatus := .running
  errorMessage : Option String := none
  durationSeconds : Option ℚ := none
  llmModelUsed : Option String := none
  deriving Repr, DecidableEq

/-- Observable trace of one `run_single_persona` call: which stages ran and
the result it returned. -/
structure RunTrace where
  healthCheckAttempted : Bool
  agentCreated : Bool
  browserOpened : Bool
  result : TestRunResult
  deriving Repr, DecidableEq

/-- Abstraction of everything outside `run_single_persona`'s own control
flow: the per-persona, per-attempt network behaviour seen by the health
check, and the trace of steps 1-5 (agent creation, agent run, extraction,
evaluation, report) when the run proceeds past the health check — those
stages are driven by the external collaborators. -/
structure RunEnv where
  net : String → Nat → Provider → Bool
  afterHealth : PersonaDefinition → RunTrace

/-- `run_single_persona`, step 0 onward: the model chain is built, then the
health check runs first, unconditionally; if it fails after retries the
function returns a FAILED result with an `"LLM health check failed: ..."`
message before `create_agent` is called and before any browser exists
(the uuid-based run id suffix is abstracted to `"-run"`). -/
def runSinglePersona (s : Settings) (env : RunEnv)
    (persona : PersonaDefinition) : RunTrace :=
  let chain := s.buildModelChain
  match (checkLlmHealthRetry s (env.net persona.id)).1 with
  | .error e =>
      { healthCheckAttempted := true, agentCreated := false,
        browserOpened := false,
        result := { runId := persona.id ++ "-run", personaId := persona.id,
                    status := .failed,
                    errorMessage := some ("LLM health check failed: " ++ e),
                    llmModelUsed := some (chain.headD "N/A") } }
  | .ok () =>
      let t := env.afterHealth persona
      { t with healthCheckAttempted := true }

/-- `run_batch`: load personas, then run `run_single_persona` for each one
sequentially, appending every result; the inter-persona cooldown sleeps do
not touch the results list, and no result is ever synthesized without a
`run_single_persona` call. -/
def runBatch (runOne : PersonaDefinition → RunTrace)
    (personas : List PersonaDefinition) : List RunTrace :=
  personas.foldl (fun results p => results ++ [runOne p]) []

/-- `run_single_persona` line 243: the post-run check that decides whether
the attempt counts as a total model failure — it requires the history to
contain exactly zero model actions and at least one error. -/
def detectsTotalModelFailure (numActions : Nat) (hasErrors : Bool) : Bool :=
  (numActions == 0) && hasErrors

/-- The error-classification keyword list of `run_single_persona` line 246. -/
def modelFailureKeywords : List String :=
  ["404", "model", "endpoint", "vision", "image input", "rate limit",
   "modelprovider", "json_invalid"]

/-- `run_single_persona` line 247: keyword sniff of the lowercased first
error. -/
def isModelFailure (firstError : String) : Bool :=
  modelFailureKeywords.any (fun kw => containsSub (pyLower firstError) kw.toList)

/-- `run_single_persona` line 276: the backup-model chain is entered exactly
when the zero-action check passed, the first error matches a model-failure
keyword, and untried models remain. -/
def entersBackupChain (numActions : Nat) (hasErrors : Bool)
    (firstError : String) (remainingModels : List String) : Bool :=
  detectsTotalModelFailure numActions hasErrors && isModelFailure firstError &&
    !remainingModels.isEmpty

/-- `orchestrator._build_on_step_end`: the seconds slept by the returned
`on_step_end` callback as a function of `agent.state.consecutive_failures` —
its only input; the callback reads no clock and takes no interval
parameter. -/
def onStepEndSleep (consecutiveFailures : Nat) : Nat :=
  if 0 < consecutiveFailures then min (10 * 2 ^ (consecutiveFailures - 1)) 60
  else 0

/-- Modelled from the spec: the backup-chain trigger it describes (§4.4/§8,
also reproduced verbatim by `tests/test_travliaq_agent.py`, class
`TestBackupChainTrigger`) — failover iff not done, errors present, and
`num_actions < min_useful_steps`.  No `min_useful_steps` logic exists under
`src/`. -/
def specBackupTrigger (isDone hasErrors : Bool)
    (numActions minUsefulSteps : Nat) : Bool :=
  !isDone && hasErrors && decide (numActions < minUsefulSteps)

/-- Modelled from the spec: the per-step sleep described in §4.4 step 3 —
failure backoff when failures are present, otherwise sleep the remainder of
the minimum step interval (default 2.5s) since the previous step's end.
The `src/` callback has no throttle branch and no timing input. -/
def specStepSleep (gap minInterval : ℚ) (consecutiveFailures : Nat) : ℚ :=
  if 0 < consecutiveFailures then (onStepEndSleep consecutiveFailures : ℚ)
  else max 0 (minInterval - gap)

/-- The provider whose SDK the health check actually calls: the branch order
of `_check_llm_health` (Groq, then OpenRouter, then Google; SambaNova and
Cerebras are never probed). -/
def probedProvider (s : Settings) : Option Provider :=
  if !(s.groqApiKey == "") then some .groq
  else if !(s.openrouterApiKey == "") && !(s.openrouterModel == "") then
    some .openrouter
  else if !(s.googleApiKey == "") then some .google
  else none

/-- The error message of a failing probe, per provider. -/
def healthErrMsg : Provider → String
  | .groq => "groq completion raised"
  | .openrouter => "openrouter completion raised"
  | .google => "google completion raised"
  | .sambanova => "sambanova is never probed"

/-- A concrete persona with the standard nine scripted phases. -/
def persona9 : PersonaDefinition :=
  { id := "p1", name := "Persona 1", language := "fr",
    conversationGoals :=
      [⟨"greeting"⟩, ⟨"preferences"⟩, ⟨"destination"⟩, ⟨"dates"⟩,
       ⟨"travelers"⟩, ⟨"logistics"⟩, ⟨"deep_conversation"⟩,
       ⟨"completion"⟩, ⟨"send_logs"⟩] }

/-- A second concrete persona, for batch scenarios. -/
def personaB : PersonaDefinition :=
  { id := "p2", name := "Persona 2", language := "en",
    conversationGoals := [⟨"greeting"⟩, ⟨"send_logs"⟩] }

/-- A placeholder trace used only as a `getD` default in closed statements. -/
def dummyTrace : RunTrace :=
  { healthCheckAttempted := false, agentCreated := false, browserOpened := false,
    result := { runId := "", personaId := "" } }

/-- An environment in which every provider completion call raises. -/
def offlineEnv : RunEnv :=
  { net := fun _ _ _ => false,
    afterHealth := fun p =>
      { healthCheckAttempted := false, agentCreated := true, browserOpened := true,
        result := { runId := p.id, personaId := p.id, status := .completed } } }

/-- An environment in which persona `p1`'s run proceeds and finishes FAILED
having exhausted every model in the chain, while the network is dead for
every other persona. -/
def exhaustEnv : RunEnv :=
  { net := fun pid _ _ => pid == "p1",
    afterHealth := fun p =>
      { healthCheckAttempted := false, agentCreated := true, browserOpened := true,
        result := { runId := p.id, personaId := p.id, status := .failed,
                    errorMessage := some "All 10 models failed: 429 rate limit" } } }

/-! ## Claim theorems -/

/-- C1: the code's backup-chain trigger fires only when the attempt produced
exactly zero actions (`len(history.model_actions()) == 0`), never for a
small-but-positive action count: at 3 actions with errors present and a
model-failure error text the code does not enter the backup chain, while the
specified trigger (`num_actions < min_useful_steps`, default 10, given
`is_done=false, has_errors=true`) fires; at 0 actions both fire. -/
theorem c1_backup_trigger_requires_zero_actions :
    detectsTotalModelFailure 3 true = false ∧
    entersBackupChain 3 true "404 model not found" ["gemini-2.5-flash-lite"] = false ∧
    specBackupTrigger false true 3 10 = true ∧
    detectsTotalModelFailure 0 true = true ∧
    entersBackupChain 0 true "404 model not found" ["gemini-2.5-flash-lite"] = true ∧
    specBackupTrigger false true 0 10 = true ∧
    specBackupTrigger true true 0 10 = false ∧
    specBackupTrigger false false 0 10 = false := by
  refine ⟨rfl, by decide, rfl, rfl, by decide, rfl, rfl, rfl⟩

/-- C3 counterexample: a persona-run tracker that has reached phase index 5
with feedback submitted is not what the next attempt sees after a
backup-model failover — `create_agent` builds a fresh tracker and the retry
rebinds to it, so the visible progress is index 0, not 5. -/
theorem c3_failover_resets_tracker_counterexample :
    (trackerAfterFailover persona9
        { totalPhases := 9, language := "fr", currentPhaseIndex := 5,
          feedbackSubmitted := true }).currentPhaseIndex ≠
      ({ totalPhases := 9, language := "fr", currentPhaseIndex := 5,
          feedbackSubmitted := true } : PhaseTracker).currentPhaseIndex := by
  decide

/-- C3 (amended): the PhaseTracker does not survive a model-failover retry:
the tracker visible to the new attempt is freshly constructed from the
persona alone — independent of the pre-switch tracker — with phase index 0
and feedback unsubmitted. -/
theorem c3_failover_tracker_is_fresh (p : PersonaDefinition)
    (prev1 prev2 : PhaseTracker) :
    trackerAfterFailover p prev1 = trackerAfterFailover p prev2 ∧
    (trackerAfterFailover p prev1).currentPhaseIndex = 0 ∧
    (trackerAfterFailover p prev1).feedbackSubmitted = false ∧
    (trackerAfterFailover p prev1).totalPhases = p.conversationGoals.length := by
  exact ⟨rfl, rfl, rfl, rfl⟩

/-- C4: the step-end callback's sleep depends only on
`consecutive_failures`: with zero failures it sleeps 0 regardless of the gap
to the previous step (the source callback has no timing input at all), so
the specified throttle (gap 0.5s under a 2.5s minimum yielding a 2.0s sleep)
does not happen; the failure-backoff part (10, 20, 40, 60, 60) matches. -/
theorem c4_step_end_has_no_throttle :
    onStepEndSleep 0 = 0 ∧
    onStepEndSleep 1 = 10 ∧ onStepEndSleep 2 = 20 ∧ onStepEndSleep 3 = 40 ∧
    onStepEndSleep 4 = 60 ∧ onStepEndSleep 5 = 60 ∧
    specStepSleep (1/2) (5/2) 0 = 2 ∧
    specStepSleep 3 (5/2) 0 = 0 ∧
    specStepSleep (1/2) (5/2) 2 = 20 := by
  refine ⟨rfl, rfl, rfl, rfl, rfl, rfl, ?_, ?_, ?_⟩ <;>
    norm_num [specStepSleep, onStepEndSleep]

/-- C8: on the last allowed step, if feedback is unsubmitted the override
does not delegate to the default forced-done behaviour (the terminal-only
schema never activates) and instead injects a message naming the feedback
link as the action to take; if feedback is submitted, it delegates to the
default behaviour. -/
theorem c8_last_step_feedback_gate (pt : PhaseTracker) :
    (pt.feedbackSubmitted = false →
      forceDoneAfterLastStep (some true) pt ≠ .superForcedDone ∧
      ∃ m, forceDoneAfterLastStep (some true) pt = .keptFullSchema m ∧
        hasSubstr m "nous aider" = true) ∧
    (pt.feedbackSubmitted = true →
      forceDoneAfterLastStep (some true) pt = .superForcedDone) := by
  constructor
  · intro hfb
    by_cases hl : pt.language == "fr"
    · refine ⟨by simp [forceDoneAfterLastStep, hfb, hl], lastStepMsgFr,
        by simp [forceDoneAfterLastStep, hfb, hl], by decide⟩
    · refine ⟨by simp [forceDoneAfterLastStep, hfb, hl], lastStepMsgEn,
        by simp [forceDoneAfterLastStep, hfb, hl], by decide⟩
  · intro hfb
    simp [forceDoneAfterLastStep, hfb]

/-- C8 witness: concrete trackers exercising both sides of the gate. -/
theorem c8_last_step_feedback_gate_witness :
    ((⟨9, "fr", 8, false, [], 0⟩ : PhaseTracker).feedbackSubmitted = false ∧
      forceDoneAfterLastStep (some true) ⟨9, "fr", 8, false, [], 0⟩ ≠ .superForcedDone ∧
      ∃ m, forceDoneAfterLastStep (some true) ⟨9, "fr", 8, false, [], 0⟩ = .keptFullSchema m ∧
        hasSubstr m "nous aider" = true) ∧
    ((⟨9, "en", 8, true, [], 0⟩ : PhaseTracker).feedbackSubmitted = true ∧
      forceDoneAfterLastStep (some true) ⟨9, "en", 8, true, [], 0⟩ = .superForcedDone) := by
  have h1 := (c8_last_step_feedback_gate ⟨9, "fr", 8, false, [], 0⟩).1 rfl
  have h2 := (c8_last_step_feedback_gate ⟨9, "en", 8, true, [], 0⟩).2 rfl
  exact ⟨⟨rfl, h1.1, h1.2⟩, ⟨rfl, h2⟩⟩

/-- Helper: the batch fold is a map over the persona list. -/
theorem runBatch_eq_map (runOne : PersonaDefinition → RunTrace) :
    ∀ (ps : List PersonaDefinition) (acc : List RunTrace),
      ps.foldl (fun results p => results ++ [runOne p]) acc = acc ++ ps.map runOne := by
  intro ps
  induction ps with
  | nil => intro acc; simp
  | cons p ps ih =>
    intro acc
    simp [List.foldl_cons, ih (acc ++ [runOne p])]

/-- Helper: `_check_llm_health` consults exactly the one provider selected by
the fixed priority, and nothing else. -/
theorem checkLlmHealthOnce_probes (s : Settings) (net : Provider → Bool) :
    checkLlmHealthOnce s net =
      match probedProvider s with
      | some q => if net q then .ok () else .error (healthErrMsg q)
      | none => .error "No LLM API keys configured" := by
  unfold checkLlmHealthOnce probedProvider healthErrMsg
  split_ifs <;> simp_all

/-- C2: `run_batch` never skips a persona: its result list is exactly one
`run_single_persona` call per persona, in order, and every such call
attempts the health check first — there is no `exhausted_providers`-driven
abort.  In the concrete batch where persona `p1` finishes FAILED with every
model exhausted, persona `p2` still gets a health check and its FAILED
result does not contain "skipped". -/
theorem c2_batch_never_skips :
    (∀ (runOne : PersonaDefinition → RunTrace) (ps : List PersonaDefinition),
      runBatch runOne ps = ps.map runOne) ∧
    (∀ (s : Settings) (env : RunEnv) (p : PersonaDefinition),
      (runSinglePersona s env p).healthCheckAttempted = true) ∧
    ((runBatch (runSinglePersona { groqApiKey := "gsk-x" } exhaustEnv)
        [persona9, personaB]).length = 2 ∧
      ((runBatch (runSinglePersona { groqApiKey := "gsk-x" } exhaustEnv)
          [persona9, personaB]).getD 0 dummyTrace).result.errorMessage =
        some "All 10 models failed: 429 rate limit" ∧
      ((runBatch (runSinglePersona { groqApiKey := "gsk-x" } exhaustEnv)
          [persona9, personaB]).getD 1 dummyTrace).healthCheckAttempted = true ∧
      ((runBatch (runSinglePersona { groqApiKey := "gsk-x" } exhaustEnv)
          [persona9, personaB]).getD 1 dummyTrace).result.status = .failed ∧
      hasSubstr
        (((runBatch (runSinglePersona { groqApiKey := "gsk-x" } exhaustEnv)
            [persona9, personaB]).getD 1 dummyTrace).result.errorMessage.getD "")
        "skipped" = false) := by
  refine ⟨?_, ?_, ?_⟩
  · intro runOne ps
    simpa using runBatch_eq_map runOne ps []
  · intro s env p
    unfold runSinglePersona
    rcases (checkLlmHealthRetry s (env.net p.id)).1 with u | e <;> rfl
  · exact ⟨by decide, by decide, by decide, by decide, by decide⟩

/-- C9: when every health-check attempt raises, the run ends FAILED before
any agent or browser exists; the retry layer makes exactly three attempts
with sleeps 10s then 20s between them, each produced by the exponential
formula with base 10 and cap 60; and `_check_llm_health` probes exactly one
provider — the first available in the Groq > OpenRouter > Google order. -/
theorem c9_health_gate (s : Settings) (env : RunEnv) (p : PersonaDefinition)
    (hfail : ∀ k, checkLlmHealthOnce s (env.net p.id k) ≠ Except.ok ()) :
    (runSinglePersona s env p).result.status = .failed ∧
    (runSinglePersona s env p).agentCreated = false ∧
    (runSinglePersona s env p).browserOpened = false ∧
    (checkLlmHealthRetry s (env.net p.id)).2 =
      [waitExponential 10 10 60 1, waitExponential 10 10 60 2] ∧
    (checkLlmHealthRetry s (env.net p.id)).2 = [10, 20] ∧
    (∀ k, 10 ≤ waitExponential 10 10 60 k ∧ waitExponential 10 10 60 k ≤ 60) ∧
    (∀ net, checkLlmHealthOnce s net =
      match probedProvider s with
      | some q => if net q then .ok () else .error (healthErrMsg q)
      | none => .error "No LLM API keys configured") ∧
    ((s.groqApiKey == "") = false → probedProvider s = some .groq) := by
  have herr : ∀ k, ∃ e, checkLlmHealthOnce s (env.net p.id k) = .error e := by
    intro k
    cases hc : checkLlmHealthOnce s (env.net p.id k) with
    | error e => exact ⟨e, rfl⟩
    | ok u => cases u; exact absurd hc (hfail k)
  obtain ⟨e1, hc1⟩ := herr 1
  obtain ⟨e2, hc2⟩ := herr 2
  obtain ⟨e3, hc3⟩ := herr 3
  have hretry : checkLlmHealthRetry s (env.net p.id) =
      (.error e3, [waitExponential 10 10 60 1, waitExponential 10 10 60 2]) := by
    unfold checkLlmHealthRetry
    rw [hc1, hc2, hc3]
  refine ⟨?_, ?_, ?_, ?_, ?_, ?_, ?_, ?_⟩
  · unfold runSinglePersona; rw [hretry]
  · unfold runSinglePersona; rw [hretry]
  · unfold runSinglePersona; rw [hretry]
  · rw [hretry]
  · rw [hretry]; rfl
  · intro k
    exact ⟨le_max_left _ _, max_le (by norm_num) (min_le_right _ _)⟩
  · intro net
    exact checkLlmHealthOnce_probes s net
  · intro hg
    unfold probedProvider
    rw [hg]
    rfl

/-- C9 witness: the empty-credential settings with a dead network make every
attempt fail, and the gate theorem applies. -/
theorem c9_health_gate_witness :
    (∀ k, checkLlmHealthOnce { } (offlineEnv.net persona9.id k) ≠ Except.ok ()) ∧
    ((runSinglePersona { } offlineEnv persona9).result.status = .failed ∧
      (runSinglePersona { } offlineEnv persona9).agentCreated = false ∧
      (runSinglePersona { } offlineEnv persona9).browserOpened = false ∧
      (checkLlmHealthRetry { } (offlineEnv.net persona9.id)).2 =
        [waitExponential 10 10 60 1, waitExponential 10 10 60 2] ∧
      (checkLlmHealthRetry { } (offlineEnv.net persona9.id)).2 = [10, 20] ∧
      (∀ k, 10 ≤ waitExponential 10 10 60 k ∧ waitExponential 10 10 60 k ≤ 60) ∧
      (∀ net, checkLlmHealthOnce { } net =
        match probedProvider { } with
        | some q => if net q then .ok () else .error (healthErrMsg q)
        | none => .error "No LLM API keys configured") ∧
      ((Settings.groqApiKey { } == "") = false → probedProvider { } = some .groq)) := by
  have hf : ∀ k, checkLlmHealthOnce { } (offlineEnv.net persona9.id k) ≠ Except.ok () := by
    intro k
    simp [checkLlmHealthOnce]
  exact ⟨hf, c9_health_gate { } offlineEnv persona9 hf⟩

/-- The settings state in which only the SambaNova credential is present. -/
def sambanovaOnly (key : String) : Settings :=
  { sambanovaApiKey := key }

/-- C10: with only the SambaNova key configured, the model chain is the
non-empty `[sambanova_model]`, yet the health check probes no provider and
raises `"No LLM API keys configured"` on every attempt, so the persona run
always ends FAILED at the health-check stage with no agent created. -/
theorem c10_sambanova_only_always_fails (key : String) (hk : key ≠ "")
    (env : RunEnv) (p : PersonaDefinition) :
    (sambanovaOnly key).buildModelChain = ["Llama-4-Maverick-17B-128E-Instruct"] ∧
    (sambanovaOnly key).buildModelChain ≠ [] ∧
    probedProvider (sambanovaOnly key) = none ∧
    (∀ net, checkLlmHealthOnce (sambanovaOnly key) net =
      .error "No LLM API keys configured") ∧
    (runSinglePersona (sambanovaOnly key) env p).result.status = .failed ∧
    (runSinglePersona (sambanovaOnly key) env p).agentCreated = false ∧
    (runSinglePersona (sambanovaOnly key) env p).result.errorMessage =
      some "LLM health check failed: No LLM API keys configured" := by
  have hb : (key == "") = false := beq_eq_false_iff_ne.mpr hk
  have hchain : (sambanovaOnly key).buildModelChain =
      ["Llama-4-Maverick-17B-128E-Instruct"] := by
    unfold Settings.buildModelChain sambanovaOnly
    rw [hb]
    rfl
  have honce : ∀ net, checkLlmHealthOnce (sambanovaOnly key) net =
      .error "No LLM API keys configured" := by
    intro net
    rfl
  have hrun : runSinglePersona (sambanovaOnly key) env p =
      { healthCheckAttempted := true, agentCreated := false,
        browserOpened := false,
        result := { runId := p.id ++ "-run", personaId := p.id,
                    status := .failed,
                    errorMessage :=
                      some "LLM health check failed: No LLM API keys configured",
                    llmModelUsed :=
                      some ((sambanovaOnly key).buildModelChain.headD "N/A") } } := by
    unfold runSinglePersona checkLlmHealthRetry
    rw [honce, honce, honce]
    rfl
  exact ⟨hchain, by rw [hchain]; exact fun h => List.noConfusion h, rfl, honce,
    by rw [hrun], by rw [hrun], by rw [hrun]⟩

/-- C10 witness: a concrete SambaNova-only key. -/
theorem c10_sambanova_only_always_fails_witness :
    ("sn-test-key" ≠ "") ∧
    ((sambanovaOnly "sn-test-key").buildModelChain =
        ["Llama-4-Maverick-17B-128E-Instruct"] ∧
      (sambanovaOnly "sn-test-key").buildModelChain ≠ [] ∧
      probedProvider (sambanovaOnly "sn-test-key") = none ∧
      (∀ net, checkLlmHealthOnce (sambanovaOnly "sn-test-key") net =
        .error "No LLM API keys configured") ∧
      (runSinglePersona (sambanovaOnly "sn-test-key") offlineEnv personaB).result.status = .failed ∧
      (runSinglePersona (sambanovaOnly "sn-test-key") offlineEnv personaB).agentCreated = false ∧
      (runSinglePersona (sambanovaOnly "sn-test-key") offlineEnv personaB).result.errorMessage =
        some "LLM health check failed: No LLM API keys configured") :=
  ⟨by decide,
    c10_sambanova_only_always_fails "sn-test-key" (by decide) offlineEnv personaB⟩

/-- Helper: pushing action names into the ring touches neither the phase
index nor the feedback flag. -/
theorem pushActionsFold_fields (names : List String) :
    ∀ pt : PhaseTracker,
      (names.foldl (fun t a => t.pushAction a) pt).currentPhaseIndex =
          pt.currentPhaseIndex ∧
        (names.foldl (fun t a => t.pushAction a) pt).feedbackSubmitted =
          pt.feedbackSubmitted := by
  induction names with
  | nil => intro pt; exact ⟨rfl, rfl⟩
  | cons n ns ih =>
    intro pt
    simpa [List.foldl_cons, PhaseTracker.pushAction] using ih (pt.pushAction n)

/-- Helper: the goal-walk fold never lowers the phase index. -/
theorem updateIndexLoop_le (combined : Str) :
    ∀ (goals : List (Nat × ConversationGoal)) (cur : Nat),
      cur ≤ updateIndexLoop goals combined cur := by
  intro goals
  induction goals with
  | nil => intro cur; simp [updateIndexLoop]
  | cons g gs ih =>
    intro cur
    unfold updateIndexLoop
    simp only [List.foldl_cons]
    refine le_trans ?_ (ih _)
    split_ifs <;> omega

/-- Helper: one `_update_phase_tracker` call never lowers the phase index
and never withdraws a submitted feedback flag. -/
theorem updatePT_mono (pt : PhaseTracker) (persona : PersonaDefinition)
    (thinking : Option String) (actions : List String) :
    pt.currentPhaseIndex ≤ (updatePT pt persona thinking actions).currentPhaseIndex ∧
    pt.feedbackSubmitted ≤ (updatePT pt persona thinking actions).feedbackSubmitted := by
  have hpa := pushActionsFold_fields actions pt
  have hle := updateIndexLoop_le (combinedHaystack thinking actions)
    persona.conversationGoals.enum
    ((actions.foldl (fun t a => t.pushAction a) pt).currentPhaseIndex)
  simp only [updatePT]
  split_ifs with h <;> constructor <;> simp_all

/-- C7: over every sequence of `_update_phase_tracker` calls, whatever the
thinking text and action names, `current_phase_index` never decreases and
`feedback_submitted` never reverts (Bool order: `false < true`); feeding an
earlier phase's keywords after reaching index 5 leaves the index at 5 and a
submitted flag submitted. -/
theorem c7_phase_tracker_monotone :
    (∀ (persona : PersonaDefinition) (pt : PhaseTracker)
       (inputs : List (Option String × List String)),
      pt.currentPhaseIndex ≤ (applyUpdates pt persona inputs).currentPhaseIndex ∧
      pt.feedbackSubmitted ≤ (applyUpdates pt persona inputs).feedbackSubmitted) ∧
    (updatePT ⟨9, "fr", 5, false, [], 0⟩ persona9
        (some "greeting bonjour") ["type"]).currentPhaseIndex = 5 ∧
    (updatePT ⟨9, "fr", 5, true, [], 0⟩ persona9
        (some "greeting bonjour") ["type"]).feedbackSubmitted = true := by
  refine ⟨?_, by decide, by decide⟩
  intro persona pt inputs
  induction inputs generalizing pt with
  | nil => exact ⟨le_refl _, le_refl _⟩
  | cons inp rest ih =>
    have h1 := updatePT_mono pt persona inp.1 inp.2
    have h2 := ih (updatePT pt persona inp.1 inp.2)
    exact ⟨le_trans h1.1 (by simpa [applyUpdates] using h2.1),
           le_trans h1.2 (by simpa [applyUpdates] using h2.2)⟩

/-- Helper: `lastOccAux` steps past an index with no occurrence. -/
theorem lastOccAux_succ (s sep : Str) (n : Nat) (h : occursAt s sep (n + 1) = false) :
    lastOccAux s sep (n + 1) = lastOccAux s sep n := by
  simp [lastOccAux, h]

/-- Helper: `lastOccAux` stops at an index with an occurrence. -/
theorem lastOccAux_hit (s sep : Str) (n : Nat) (h : occursAt s sep n = true) :
    lastOccAux s sep n = some n := by
  cases n <;> simp [lastOccAux, h]

/-- Helper: Python `rsplit(" x", 1)[0]` recovers the base from a pattern
whose multiplicity is a single character: the last `" x"` occurrence is the
appended separator, whatever the base string is. -/
theorem rsplitHead_digit (a : Str) (d : Char) :
    rsplitHead (a ++ [' ', 'x', d]) [' ', 'x'] = a := by
  have hlen : (a ++ [' ', 'x', d]).length = a.length + 3 := by simp
  have hdrop : ∀ k, (a ++ [' ', 'x', d]).drop (a.length + k) =
      ([' ', 'x', d] : Str).drop k := by
    intro k
    rw [← List.drop_drop, List.drop_left]
  have e0 : occursAt (a ++ [' ', 'x', d]) [' ', 'x'] a.length = true := by
    have := hdrop 0
    simp only [Nat.add_zero] at this
    simp [occursAt, this]
  have e1 : occursAt (a ++ [' ', 'x', d]) [' ', 'x'] (a.length + 1) = false := by
    simp [occursAt, hdrop 1]
  have e2 : occursAt (a ++ [' ', 'x', d]) [' ', 'x'] (a.length + 2) = false := by
    simp [occursAt, hdrop 2]
  have e3 : occursAt (a ++ [' ', 'x', d]) [' ', 'x'] (a.length + 3) = false := by
    simp [occursAt, hdrop 3]
  have walk : lastOcc (a ++ [' ', 'x', d]) [' ', 'x'] = some a.length := by
    unfold lastOcc
    rw [hlen]
    rw [show a.length + 3 = (a.length + 2) + 1 from rfl, lastOccAux_succ _ _ _ e3]
    rw [show a.length + 2 = (a.length + 1) + 1 from rfl, lastOccAux_succ _ _ _ e2]
    rw [lastOccAux_succ _ _ _ e1]
    exact lastOccAux_hit _ _ _ e0
  unfold rsplitHead
  rw [walk]
  exact List.take_left a [' ', 'x', d]

/-- Helper: the two pattern-type strings differ. -/
theorem repeatT_ne_alternatingT : ¬ repeatT = alternatingT := by decide

/-- Helper: one more identical push onto an ongoing repeat is suppressed and
only slides the window. -/
theorem repState_push (a : Str) (m : Nat) (h3 : 3 ≤ m) (h8 : m ≤ 8) :
    (repState a m).push a =
      (repState a (min (m + 1) 8),
        { detected := false, window := List.replicate (min (m + 1) 8) a }) := by
  interval_cases m <;>
    simp [repState, LoopDetector.push, LoopDetector.check, allSame, natToStr,
      repeatKey, List.takeWhile, List.replicate, repeatT_ne_alternatingT,
      (show Nat.toDigits 10 4 = ['4'] from by decide),
      (show Nat.toDigits 10 5 = ['5'] from by decide),
      (show Nat.toDigits 10 6 = ['6'] from by decide),
      (show Nat.toDigits 10 7 = ['7'] from by decide),
      (show Nat.toDigits 10 8 = ['8'] from by decide),
      rsplitHead_digit a '4', rsplitHead_digit a '5', rsplitHead_digit a '6',
      rsplitHead_digit a '7', rsplitHead_digit a '8', sepX]

/-- Helper: `pushAll` distributes over list append. -/
theorem pushAll_append (d : LoopDetector) (l1 l2 : List Str) :
    pushAll d (l1 ++ l2) =
      ((pushAll (pushAll d l1).1 l2).1,
        (pushAll d l1).2 ++ (pushAll (pushAll d l1).1 l2).2) := by
  induction l1 generalizing d with
  | nil => simp [pushAll]
  | cons x xs ih => simp [pushAll, ih]

/-- Helper: three identical pushes into a fresh detector: no detection, no
detection, then the repeat fires and is remembered. -/
theorem rep_first3 (a : Str) :
    (pushAll LoopDetector.init (List.replicate 3 a)).1 = repState a 3 ∧
    (pushAll LoopDetector.init (List.replicate 3 a)).2.map LoopDetection.detected =
      [false, false, true] := by
  constructor <;>
    simp [pushAll, LoopDetector.init, LoopDetector.push, LoopDetector.check,
      allSame, natToStr, repState, repeatKey, List.takeWhile, List.replicate,
      repeatT_ne_alternatingT,
      (show Nat.toDigits 10 3 = ['3'] from by decide),
      rsplitHead_digit a '3', sepX]

/-- Helper: `n ≥ 3` identical pushes leave the detector mid-repeat with one
detection counted, and only push 3 reported it. -/
theorem repRun (a : Str) : ∀ n, 3 ≤ n →
    (pushAll LoopDetector.init (List.replicate n a)).1 = repState a (min n 8) ∧
    (pushAll LoopDetector.init (List.replicate n a)).2.map LoopDetection.detected =
      List.replicate 2 false ++ true :: List.replicate (n - 3) false := by
  intro n h
  induction n, h using Nat.le_induction with
  | base => exact ⟨(rep_first3 a).1, by simpa using (rep_first3 a).2⟩
  | succ n hn ih =>
    have hm3 : 3 ≤ min n 8 := le_min hn (by norm_num)
    have hm8 : min n 8 ≤ 8 := min_le_right n 8
    have hstep := repState_push a (min n 8) hm3 hm8
    have hminmin : min (min n 8 + 1) 8 = min (n + 1) 8 := by omega
    rw [List.replicate_succ' n a, pushAll_append, ih.1]
    constructor
    · simp [pushAll, hstep, hminmin]
    · simp [pushAll, hstep, ih.2]
      rw [← List.replicate_succ', show n - 3 + 1 = n - 2 from by omega]

/-- Helper: a different action after an ongoing repeat is not a detection
and clears the suppression key. -/
theorem rep_break (a b : Str) (hab : (b == a) = false) (n : Nat) (h : 3 ≤ n) :
    ((pushAll LoopDetector.init (List.replicate n a)).1.push b).2.detected = false ∧
    ((pushAll LoopDetector.init (List.replicate n a)).1.push b).1.suppressedPattern
      = none := by
  have hm3 : 3 ≤ min n 8 := le_min h (by norm_num)
  have hm8 : min n 8 ≤ 8 := min_le_right n 8
  rw [(repRun a n h).1]
  constructor <;>
  · generalize min n 8 = m at hm3 hm8
    interval_cases m <;>
      simp [repState, LoopDetector.push, LoopDetector.check, allSame,
        List.replicate, hab]

/-- C5: for every action name and every `n ≥ 3`, pushing it `n` times into a
fresh Loop Detector reports detection exactly once — on push 3, the push
reaching `repeat_threshold` — with every further identical push suppressed,
`detected_count = 1` at the end, and any different action clearing the
suppression. -/
theorem c5_repeat_fires_once (a : Str) (n : Nat) (h : 3 ≤ n) :
    (pushAll LoopDetector.init (List.replicate n a)).2.map LoopDetection.detected =
      List.replicate 2 false ++ true :: List.replicate (n - 3) false ∧
    (pushAll LoopDetector.init (List.replicate n a)).1.detectedCount = 1 ∧
    (∀ b, (b == a) = false →
      ((pushAll LoopDetector.init (List.replicate n a)).1.push b).2.detected = false ∧
      ((pushAll LoopDetector.init (List.replicate n a)).1.push b).1.suppressedPattern
        = none) := by
  refine ⟨(repRun a n h).2, ?_, fun b hb => rep_break a b hb n h⟩
  rw [(repRun a n h).1]
  rfl

/-- C5 witness: five pushes of `"click"`, then one `"scroll"`. -/
theorem c5_repeat_fires_once_witness :
    (3 ≤ 5) ∧
    ((pushAll LoopDetector.init (List.replicate 5 clickA)).2.map LoopDetection.detected =
        List.replicate 2 false ++ true :: List.replicate (5 - 3) false ∧
      (pushAll LoopDetector.init (List.replicate 5 clickA)).1.detectedCount = 1 ∧
      ((scrollA == clickA) = false ∧
        ((pushAll LoopDetector.init (List.replicate 5 clickA)).1.push scrollA).2.detected
          = false ∧
        ((pushAll LoopDetector.init (List.replicate 5 clickA)).1.push scrollA).1.suppressedPattern
          = none)) := by
  have h := c5_repeat_fires_once clickA 5 (by norm_num)
  have hb : (scrollA == clickA) = false := by decide
  exact ⟨by norm_num, h.1, h.2.1, hb, (h.2.2 scrollA hb).1, (h.2.2 scrollA hb).2⟩

/-- Helper: one step of `altSeq`. -/
theorem altSeq_succ (n : Nat) : altSeq (n + 1) = altSeq n ++ [altElem n] := by
  simp [altSeq, List.range_succ]

/-- Helper: continuing the alternation from either phase is suppressed — the
normalized key (pair sorted) matches the remembered one — and only slides
the window. -/
theorem altState_push (n : Nat) (h : 4 ≤ n) :
    (altState n).push (altElem n) =
      (altState (n + 1), { detected := false, window := altWin (n + 1) }) := by
  rcases lt_or_ge n 8 with h8 | h8
  · interval_cases n <;> decide
  · have h8' : ¬ n < 8 := not_lt.mpr h8
    have h8'' : ¬ n + 1 < 8 := by omega
    rcases Nat.even_or_odd n with he | ho
    · have hm : n % 2 = 0 := Nat.even_iff.mp he
      have hm1 : (n + 1) % 2 = 1 := by omega
      simp only [altState, altWin, altElem, h8', h8'', hm, hm1, if_false]
      decide
    · have hm : n % 2 = 1 := Nat.odd_iff.mp ho
      have hm1 : (n + 1) % 2 = 0 := by omega
      simp only [altState, altWin, altElem, h8', h8'', hm, hm1, if_false]
      decide

/-- Helper: `click, scroll, click, scroll` into a fresh detector detects the
alternating pattern on the fourth push only. -/
theorem alt_first4 :
    (pushAll LoopDetector.init (altSeq 4)).1 = altState 4 ∧
    (pushAll LoopDetector.init (altSeq 4)).2.map LoopDetection.detected =
      [false, false, false, true] ∧
    ((pushAll LoopDetector.init (altSeq 4)).2.getD 3
      ⟨false, none, none, []⟩).patternType = some alternatingT := by
  decide

/-- Helper: `n ≥ 4` alternating pushes leave one counted detection, reported
at push 4 with pattern type `"alternating"`. -/
theorem altRun : ∀ n, 4 ≤ n →
    (pushAll LoopDetector.init (altSeq n)).1 = altState n ∧
    (pushAll LoopDetector.init (altSeq n)).2.map LoopDetection.detected =
      List.replicate 3 false ++ true :: List.replicate (n - 4) false ∧
    ((pushAll LoopDetector.init (altSeq n)).2.getD 3
      ⟨false, none, none, []⟩).patternType = some alternatingT := by
  intro n h
  induction n, h using Nat.le_induction with
  | base => exact ⟨alt_first4.1, by simpa using alt_first4.2.1, alt_first4.2.2⟩
  | succ n hn ih =>
    have hlen : (pushAll LoopDetector.init (altSeq n)).2.length = n := by
      have := congrArg List.length ih.2.1
      simp at this
      omega
    have hstep := altState_push n hn
    refine ⟨?_, ?_, ?_⟩
    · rw [altSeq_succ, pushAll_append, ih.1]
      simp [pushAll, hstep]
    · rw [altSeq_succ, pushAll_append, ih.1]
      simp [pushAll, hstep, ih.2.1]
      rw [← List.replicate_succ', show n - 4 + 1 = n - 3 from by omega]
    · rw [altSeq_succ, pushAll_append]
      rw [List.getD_append _ _ _ 3 (by omega)]
      exact ih.2.2

/-- C6: pushing `click, scroll, click, scroll` detects on the fourth push
with pattern type `"alternating"`, and every continuation of the same
alternation — the windows cycle through the `A,B` and `B,A` phases, whose
keys sort to the same suppression key — is reported not-detected, leaving
`detected_count` at 1. -/
theorem c6_alternating_fires_once (n : Nat) (h : 4 ≤ n) :
    (pushAll LoopDetector.init (altSeq n)).2.map LoopDetection.detected =
      List.replicate 3 false ++ true :: List.replicate (n - 4) false ∧
    ((pushAll LoopDetector.init (altSeq n)).2.getD 3
      ⟨false, none, none, []⟩).patternType = some alternatingT ∧
    (pushAll LoopDetector.init (altSeq n)).1.detectedCount = 1 := by
  refine ⟨(altRun n h).2.1, (altRun n h).2.2, ?_⟩
  rw [(altRun n h).1]
  rfl

/-- C6 witness: eight alternating pushes (two full continuations past the
detection, one in each phase). -/
theorem c6_alternating_fires_once_witness :
    (4 ≤ 8) ∧
    ((pushAll LoopDetector.init (altSeq 8)).2.map LoopDetection.detected =
        List.replicate 3 false ++ true :: List.replicate (8 - 4) false ∧
      ((pushAll LoopDetector.init (altSeq 8)).2.getD 3
        ⟨false, none, none, []⟩).patternType = some alternatingT ∧
      (pushAll LoopDetector.init (altSeq 8)).1.detectedCount = 1) :=
  ⟨by norm_num, c6_alternating_fires_once 8 (by norm_num)⟩

end Travliaq
